import Mathlib

/-!
Shallow embedding of the loan decision and bias-audit engine
(`src/submission/loan_agent.py`, class `LoanApprovalAnalyzer`).

Real-valued applicant fields (income, debt, the debt-to-income ratio)
are modelled as rationals; credit scores and ages as integers.  Python
`ValueError` exceptions become `Except String` with the source's
message strings.  The instance-held `decisions_log` becomes an explicit
state parameter threaded through `evaluate_applicant` and
`process_applicant_batch`; because the Python log survives a raised
exception, those functions return the final log alongside the
`Except` result.
-/

deriving instance DecidableEq for Except

namespace LoanAgent

/-- `DecisionType` enum of the source. -/
inductive DecisionType
  | APPROVED
  | CONDITIONAL_APPROVAL
  | DENIED
deriving DecidableEq, Repr, Inhabited

/-- The `.value` string of each `DecisionType` member. -/
def DecisionType.value : DecisionType → String
  | .APPROVED => "APPROVED"
  | .CONDITIONAL_APPROVAL => "CONDITIONAL_APPROVAL"
  | .DENIED => "DENIED"

/-- `CreditScoreBand` enum of the source. -/
inductive CreditScoreBand
  | POOR
  | FAIR
  | GOOD
  | VERY_GOOD
  | EXCELLENT
deriving DecidableEq, Repr, Inhabited

/-- The `.value` string of each `CreditScoreBand` member. -/
def CreditScoreBand.value : CreditScoreBand → String
  | .POOR => "Poor"
  | .FAIR => "Fair"
  | .GOOD => "Good"
  | .VERY_GOOD => "Very Good"
  | .EXCELLENT => "Excellent"

/-- An applicant record as consumed by the analyzer.  `age` is optional
in the source (`applicant.get('age', 0)`), hence `Option`. -/
structure Applicant where
  name : String
  income : ℚ
  credit_score : ℤ
  debt : ℚ
  age : Option ℤ := none
deriving DecidableEq, Repr, Inhabited

/-- The `LoanDecision` dataclass of the source. -/
structure LoanDecision where
  applicant_name : String
  decision : DecisionType
  debt_to_income_ratio : ℚ
  credit_score_band : CreditScoreBand
  explanation : String
  bias_flags : List String
  risk_factors : List String
deriving DecidableEq, Repr, Inhabited

/-- `DTI_THRESHOLD = 0.30`. -/
def DTI_THRESHOLD : ℚ := 0.30

/-- `MIN_CREDIT_SCORE = 650`. -/
def MIN_CREDIT_SCORE : ℤ := 650

/-- The `CREDIT_SCORE_BANDS` dict, as a list of ((min,max), band) pairs in
insertion order. -/
def CREDIT_SCORE_BANDS : List ((ℤ × ℤ) × CreditScoreBand) :=
  [((0, 579), CreditScoreBand.POOR),
   ((580, 669), CreditScoreBand.FAIR),
   ((670, 739), CreditScoreBand.GOOD),
   ((740, 799), CreditScoreBand.VERY_GOOD),
   ((800, 850), CreditScoreBand.EXCELLENT)]

/-- `calculate_debt_to_income_ratio`: validates inputs, returns `debt / income`. -/
def calculate_debt_to_income_ratio (income debt : ℚ) : Except String ℚ :=
  if income ≤ 0 then Except.error "Income must be positive"
  else if debt < 0 then Except.error "Debt cannot be negative"
  else Except.ok (debt / income)

/-- The `for (min_score, max_score), band in self.CREDIT_SCORE_BANDS.items()`
loop of `get_credit_score_band`, with the post-loop "categorization failed"
raise as the base case. -/
def find_band : List ((ℤ × ℤ) × CreditScoreBand) → ℤ → Except String CreditScoreBand
  | [], _ => Except.error "Credit score categorization failed"
  | ((min_score, max_score), band) :: rest, credit_score =>
    if min_score ≤ credit_score ∧ credit_score ≤ max_score then Except.ok band
    else find_band rest credit_score

/-- `get_credit_score_band`: range check, then first matching table entry. -/
def get_credit_score_band (credit_score : ℤ) : Except String CreditScoreBand :=
  if ¬(300 ≤ credit_score ∧ credit_score ≤ 850) then
    Except.error "Credit score must be between 300 and 850"
  else find_band CREDIT_SCORE_BANDS credit_score

/-- `charsStartWith s p = true` iff `p` is an initial segment of `s`
(character lists). -/
def charsStartWith : List Char → List Char → Bool
  | _, [] => true
  | [], _ :: _ => false
  | c :: cs, p :: ps => c == p && charsStartWith cs ps

/-- `charsContain s p = true` iff `p` occurs contiguously in `s`. -/
def charsContain : List Char → List Char → Bool
  | [], pat => pat.isEmpty
  | s@(_ :: rest), pat => charsStartWith s pat || charsContain rest pat

/-- Python's substring test `pat in s` on strings. -/
def strContains (s pat : String) : Bool :=
  charsContain s.toList pat.toList

/-- Python's `s.startswith(pre)` on strings. -/
def strHasPre (s pre : String) : Bool :=
  charsStartWith s.toList pre.toList

/-- The age-bias flag string of `detect_potential_bias`. -/
def ageBiasMsg : String :=
  "AGE_BIAS_RISK: Young applicant denial - verify decision not age-based"

/-- The income-bias flag string of `detect_potential_bias`. -/
def incomeBiasMsg : String :=
  "INCOME_BIAS_RISK: Lower-income denial - ensure decision based on DTI, not absolute income"

/-- The credit-score-limitation flag string of `detect_potential_bias`. -/
def creditLimitMsg : String :=
  "CREDIT_SCORE_LIMITATION: Fair credit score ≠ inability to repay - consider full financial picture"

/-- The human-oversight escalation flag string of `detect_potential_bias`. -/
def multipleBiasMsg : String :=
  "MULTIPLE_BIAS_INDICATORS: Decision requires human oversight for fairness review"

/-- `detect_potential_bias`: the four sequential checks, each appending to
the accumulated `bias_flags` list; the last check inspects the flags
accumulated so far (counting those containing `'BIAS_RISK'`). -/
def detect_potential_bias (applicant : Applicant) (decision : DecisionType) : List String :=
  let bias_flags : List String := []
  let age := applicant.age.getD 0
  let bias_flags :=
    if age < 35 ∧ decision = DecisionType.DENIED then bias_flags ++ [ageBiasMsg] else bias_flags
  let income := applicant.income
  let bias_flags :=
    if income < 50000 ∧ decision = DecisionType.DENIED then bias_flags ++ [incomeBiasMsg]
    else bias_flags
  let credit_score := applicant.credit_score
  let bias_flags :=
    if 580 ≤ credit_score ∧ credit_score < 650 then bias_flags ++ [creditLimitMsg]
    else bias_flags
  let bias_flags :=
    if decision = DecisionType.DENIED ∧
        2 ≤ (bias_flags.filter (fun f => strContains f "BIAS_RISK")).length then
      bias_flags ++ [multipleBiasMsg]
    else bias_flags
  bias_flags

/-- Models Python's `f"{x:.1%}"` on a rational: percentage with one decimal
digit.  (CPython rounds the underlying binary float half-to-even; this model
rounds the rational half-up.  No ratio appearing in this development sits on
a rounding tie, so the two agree on every value used here.) -/
def formatPct1 (q : ℚ) : String :=
  let m : ℤ := round (q * 1000)
  toString (m / 10) ++ "." ++ toString (m % 10).natAbs ++ "%"

/-- Models Python's `f"{x:.0%}"` on a rational: whole-number percentage. -/
def formatPct0 (q : ℚ) : String :=
  toString (round (q * 100) : ℤ) ++ "%"

/-- The high-DTI risk-factor string of `assess_risk_factors`. -/
def highDtiMsg (dti : ℚ) : String :=
  "High debt-to-income ratio: " ++ formatPct1 dti ++ " exceeds " ++
    formatPct0 DTI_THRESHOLD ++ " threshold"

/-- The below-minimum-credit-score risk-factor string of `assess_risk_factors`. -/
def lowScoreMsg (credit_score : ℤ) : String :=
  "Credit score " ++ toString credit_score ++ " below minimum " ++ toString MIN_CREDIT_SCORE

/-- The poor-credit-history risk-factor string of `assess_risk_factors`. -/
def poorCreditMsg : String :=
  "Poor credit history indicates elevated default risk"

/-- The extremely-high-debt-burden risk-factor string of `assess_risk_factors`. -/
def extremeDebtMsg : String :=
  "Extremely high debt burden may impact repayment capacity"

/-- `assess_risk_factors`: four independent checks, each appending one factor. -/
def assess_risk_factors (applicant : Applicant) (dti : ℚ)
    (credit_band : CreditScoreBand) : List String :=
  let risk_factors : List String := []
  let risk_factors :=
    if DTI_THRESHOLD < dti then risk_factors ++ [highDtiMsg dti] else risk_factors
  let risk_factors :=
    if applicant.credit_score < MIN_CREDIT_SCORE then
      risk_factors ++ [lowScoreMsg applicant.credit_score]
    else risk_factors
  let risk_factors :=
    if credit_band = CreditScoreBand.POOR then risk_factors ++ [poorCreditMsg]
    else risk_factors
  let risk_factors :=
    if (0.40 : ℚ) < dti then risk_factors ++ [extremeDebtMsg] else risk_factors
  risk_factors

/-- `make_loan_decision`: recomputes the ratio and band (either raise
propagates), then applies the four rules in source order (first match wins). -/
def make_loan_decision (applicant : Applicant) : Except String DecisionType :=
  match calculate_debt_to_income_ratio applicant.income applicant.debt with
  | Except.error e => Except.error e
  | Except.ok dti =>
    let credit_score := applicant.credit_score
    match get_credit_score_band credit_score with
    | Except.error e => Except.error e
    | Except.ok _credit_band =>
      if dti < DTI_THRESHOLD ∧ MIN_CREDIT_SCORE ≤ credit_score then
        Except.ok DecisionType.APPROVED
      else if MIN_CREDIT_SCORE ≤ credit_score ∧ dti < 0.35 then
        Except.ok DecisionType.CONDITIONAL_APPROVAL
      else if dti < DTI_THRESHOLD ∧ 620 ≤ credit_score then
        Except.ok DecisionType.CONDITIONAL_APPROVAL
      else
        Except.ok DecisionType.DENIED

/-- The `base_info` f-string of `generate_decision_explanation`. -/
def base_info (applicant : Applicant) (dti : ℚ) (credit_band : CreditScoreBand) : String :=
  "DTI: " ++ formatPct1 dti ++ ", Credit Score: " ++ toString applicant.credit_score ++
    " (" ++ credit_band.value ++ ")"

/-- `generate_decision_explanation`: outcome-keyed template; the `Denied`
branch joins the risk factors with `"; "` or falls back to a fixed phrase
when the list is empty. -/
def generate_decision_explanation (applicant : Applicant) (decision : DecisionType)
    (dti : ℚ) (credit_band : CreditScoreBand) (risk_factors : List String) : String :=
  let info := base_info applicant dti credit_band
  match decision with
  | DecisionType.APPROVED =>
    "APPROVED - " ++ info ++ ". Meets all standard lending criteria."
  | DecisionType.CONDITIONAL_APPROVAL =>
    "CONDITIONAL APPROVAL - " ++ info ++ ". Requires additional verification or terms adjustment."
  | DecisionType.DENIED =>
    let risk_summary :=
      if risk_factors = [] then "Multiple risk factors identified"
      else String.intercalate "; " risk_factors
    "DENIED - " ++ info ++ ". Risk factors: " ++ risk_summary

/-- The body of `evaluate_applicant`'s `try` block up to (but excluding) the
log append: metrics, decision, risks, bias flags, explanation, record.  A
raise in any step propagates. -/
def analyze_applicant (applicant : Applicant) : Except String LoanDecision :=
  match calculate_debt_to_income_ratio applicant.income applicant.debt with
  | Except.error e => Except.error e
  | Except.ok dti =>
    match get_credit_score_band applicant.credit_score with
    | Except.error e => Except.error e
    | Except.ok credit_band =>
      match make_loan_decision applicant with
      | Except.error e => Except.error e
      | Except.ok decision =>
        let risk_factors := assess_risk_factors applicant dti credit_band
        let bias_flags := detect_potential_bias applicant decision
        let explanation :=
          generate_decision_explanation applicant decision dti credit_band risk_factors
        Except.ok { applicant_name := applicant.name
                    decision := decision
                    debt_to_income_ratio := dti
                    credit_score_band := credit_band
                    explanation := explanation
                    bias_flags := bias_flags
                    risk_factors := risk_factors }

/-- `evaluate_applicant`: on success the record is appended to the log and
returned; any exception is re-raised wrapped with the applicant's name, and
the log (second component) is left as it was. -/
def evaluate_applicant (applicant : Applicant) (decisions_log : List LoanDecision) :
    Except String LoanDecision × List LoanDecision :=
  match analyze_applicant applicant with
  | Except.ok d => (Except.ok d, decisions_log ++ [d])
  | Except.error e =>
    (Except.error ("Error evaluating applicant " ++ applicant.name ++ ": " ++ e),
     decisions_log)

/-- `process_applicant_batch`: evaluates each applicant in input order,
collecting the decisions; a raised error propagates (fail-fast), with the
log retaining the appends made so far. -/
def process_applicant_batch (applicants : List Applicant)
    (decisions_log : List LoanDecision) :
    Except String (List LoanDecision) × List LoanDecision :=
  match applicants with
  | [] => (Except.ok [], decisions_log)
  | a :: rest =>
    match evaluate_applicant a decisions_log with
    | (Except.ok d, log1) =>
      match process_applicant_batch rest log1 with
      | (Except.ok ds, log2) => (Except.ok (d :: ds), log2)
      | (Except.error e, log2) => (Except.error e, log2)
    | (Except.error e, log1) => (Except.error e, log1)

/-- One step of the decision-count accumulation
`decision_counts[k] = decision_counts.get(k, 0) + 1` on an
insertion-ordered dict modelled as an association list. -/
def bumpCount : List (String × Nat) → String → List (String × Nat)
  | [], k => [(k, 1)]
  | (k', n) :: rest, k =>
    if k' = k then (k', n + 1) :: rest else (k', n) :: bumpCount rest k

/-- The `decision_counts` dict of `generate_audit_report`: counts per
decision outcome, keys in insertion (= first-seen) order. -/
def decision_counts (log : List LoanDecision) : List (String × Nat) :=
  log.foldl (fun acc d => bumpCount acc d.decision.value) []

/-- `all_bias_flags`: the concatenation of every decision's bias flags, in
log order. -/
def all_bias_flags (log : List LoanDecision) : List String :=
  (log.map (fun d => d.bias_flags)).flatten

/-- The bias-flag histogram of `generate_audit_report`: the source iterates
`unique_flags = set(all_bias_flags)` in the set's (unspecified) order and
pairs each flag with `all_bias_flags.count(flag)`.  The iteration order is
passed in as `set_order`. -/
def flag_histogram (log : List LoanDecision) (set_order : List String) :
    List (String × Nat) :=
  set_order.map (fun f => (f, (all_bias_flags log).count f))

/-- `set_order` is a possible iteration order of `set(all_bias_flags log)`:
duplicate-free and containing exactly the distinct flags of the log. -/
def valid_set_order (log : List LoanDecision) (set_order : List String) : Prop :=
  set_order.Nodup ∧ (∀ f ∈ set_order, f ∈ all_bias_flags log) ∧
    ∀ f ∈ all_bias_flags log, f ∈ set_order

/-- `generate_audit_report`, parameterized by the iteration order of the
bias-flag set (the one source of nondeterminism in the function). -/
def generate_audit_report (log : List LoanDecision) (set_order : List String) : String :=
  if log = [] then "No decisions recorded for audit."
  else
    let report := "=== LOAN APPROVAL AUDIT REPORT ===\n\n" ++ "Decision Summary:\n" ++
      String.join ((decision_counts log).map
        (fun p => "  " ++ p.1 ++ ": " ++ toString p.2 ++ "\n"))
    let flags := all_bias_flags log
    if flags = [] then report
    else report ++ "\nBias Flags Raised: " ++ toString flags.length ++ "\n" ++
      String.join ((flag_histogram log set_order).map
        (fun p => "  " ++ p.1 ++ ": " ++ toString p.2 ++ " instances\n"))

/-- First-seen order of the elements of a list (first occurrence kept). -/
def firstSeen (l : List String) : List String :=
  l.foldl (fun acc x => if x ∈ acc then acc else acc ++ [x]) []

/-- Total count recorded for key `k` in an association list. -/
def getCount (acc : List (String × Nat)) (k : String) : Nat :=
  ((acc.filter (fun p => p.1 = k)).map (fun p => p.2)).sum

/-- The `applicants` dataset of the source: Alice. -/
def alice : Applicant :=
  { name := "Alice", income := 62000, credit_score := 710, debt := 22000, age := some 33 }

/-- The `applicants` dataset of the source: Bob. -/
def bob : Applicant :=
  { name := "Bob", income := 45000, credit_score := 640, debt := 18000, age := some 41 }

/-- The `applicants` dataset of the source: Carol. -/
def carol : Applicant :=
  { name := "Carol", income := 38000, credit_score := 580, debt := 25000, age := some 29 }

/-- A malformed applicant (non-positive income) used to exercise the error
paths. -/
def dave : Applicant :=
  { name := "Dave", income := -5, credit_score := 700, debt := 1000, age := some 40 }

/-- The successful result of analyzing an applicant (arbitrary on failure). -/
def analysisOf (applicant : Applicant) : LoanDecision :=
  match analyze_applicant applicant with
  | Except.ok d => d
  | Except.error _ => default

/-- Bob's decision record as computed by the engine (established by
`bob_analysis`). -/
def bobRec : LoanDecision :=
  { applicant_name := "Bob"
    decision := DecisionType.DENIED
    debt_to_income_ratio := 0.40
    credit_score_band := CreditScoreBand.FAIR
    explanation := generate_decision_explanation bob DecisionType.DENIED 0.40
      CreditScoreBand.FAIR (assess_risk_factors bob 0.40 CreditScoreBand.FAIR)
    bias_flags := detect_potential_bias bob DecisionType.DENIED
    risk_factors := assess_risk_factors bob 0.40 CreditScoreBand.FAIR }

/-- Carol's decision record as computed by the engine (established by
`carol_analysis`). -/
def carolRec : LoanDecision :=
  { applicant_name := "Carol"
    decision := DecisionType.DENIED
    debt_to_income_ratio := 25/38
    credit_score_band := CreditScoreBand.FAIR
    explanation := generate_decision_explanation carol DecisionType.DENIED (25/38)
      CreditScoreBand.FAIR (assess_risk_factors carol (25/38) CreditScoreBand.FAIR)
    bias_flags := detect_potential_bias carol DecisionType.DENIED
    risk_factors := assess_risk_factors carol (25/38) CreditScoreBand.FAIR }

/-- Whether analyzing an applicant succeeds. -/
def analyzeOk (applicant : Applicant) : Bool :=
  match analyze_applicant applicant with
  | Except.ok _ => true
  | Except.error _ => false

/-- Direct arithmetic interval classification of the credit-score table
(the shape §9 of the design notes asks for); used to state that the table
lookup is total on the valid domain. -/
def bandOf (credit_score : ℤ) : CreditScoreBand :=
  if credit_score ≤ 579 then CreditScoreBand.POOR
  else if credit_score ≤ 669 then CreditScoreBand.FAIR
  else if credit_score ≤ 739 then CreditScoreBand.GOOD
  else if credit_score ≤ 799 then CreditScoreBand.VERY_GOOD
  else CreditScoreBand.EXCELLENT

/-- The table entries whose range contains the given score. -/
def matching_bands (credit_score : ℤ) : List ((ℤ × ℤ) × CreditScoreBand) :=
  CREDIT_SCORE_BANDS.filter (fun e => decide (e.1.1 ≤ credit_score ∧ credit_score ≤ e.1.2))

/-- Whether an `Except` result is a success. -/
def exceptIsOk {α : Type} : Except String α → Bool
  | Except.ok _ => true
  | Except.error _ => false

/-- An applicant with ratio 0.20 and credit score 700. -/
def patApproved : Applicant :=
  { name := "Pat", income := 100, credit_score := 700, debt := 20, age := none }

/-- The audit log after evaluating Carol on an empty log. -/
def carolLog : List LoanDecision := (evaluate_applicant carol []).2

/-- A possible set-iteration order over Carol's distinct bias flags: the
reverse of first-seen order. -/
def cexOrder : List String :=
  [multipleBiasMsg, creditLimitMsg, incomeBiasMsg, ageBiasMsg]

/- ### Helper lemmas -/

theorem dti_ok {income debt : ℚ} (h1 : 0 < income) (h2 : 0 ≤ debt) :
    calculate_debt_to_income_ratio income debt = Except.ok (debt / income) := by
  unfold calculate_debt_to_income_ratio
  rw [if_neg (by linarith), if_neg (by linarith)]

theorem dti_inv {income debt r : ℚ}
    (h : calculate_debt_to_income_ratio income debt = Except.ok r) :
    0 < income ∧ 0 ≤ debt ∧ r = debt / income := by
  unfold calculate_debt_to_income_ratio at h
  split_ifs at h with h1 h2
  refine ⟨by linarith, by linarith, ?_⟩
  injection h with h'
  exact h'.symm

theorem band_ok {s : ℤ} (h1 : 300 ≤ s) (h2 : s ≤ 850) :
    get_credit_score_band s = Except.ok (bandOf s) := by
  unfold get_credit_score_band bandOf
  rw [if_neg (by omega)]
  simp only [CREDIT_SCORE_BANDS, find_band]
  split_ifs <;> first | rfl | omega

theorem band_inv {s : ℤ} {b : CreditScoreBand}
    (h : get_credit_score_band s = Except.ok b) : 300 ≤ s ∧ s ≤ 850 := by
  unfold get_credit_score_band at h
  split_ifs at h with hc
  omega

theorem bob_analysis : analyze_applicant bob = Except.ok bobRec := by
  unfold analyze_applicant
  rw [show calculate_debt_to_income_ratio bob.income bob.debt = Except.ok 0.40 by
    with_unfolding_all decide]
  dsimp only
  rw [show get_credit_score_band bob.credit_score = Except.ok CreditScoreBand.FAIR by decide]
  dsimp only
  rw [show make_loan_decision bob = Except.ok DecisionType.DENIED by
    with_unfolding_all decide]
  rfl

theorem carol_analysis : analyze_applicant carol = Except.ok carolRec := by
  unfold analyze_applicant
  rw [show calculate_debt_to_income_ratio carol.income carol.debt = Except.ok (25/38) by
    with_unfolding_all decide]
  dsimp only
  rw [show get_credit_score_band carol.credit_score = Except.ok CreditScoreBand.FAIR by decide]
  dsimp only
  rw [show make_loan_decision carol = Except.ok DecisionType.DENIED by
    with_unfolding_all decide]
  rfl

theorem dave_analysis : analyze_applicant dave = Except.error "Income must be positive" := by
  unfold analyze_applicant
  rw [show calculate_debt_to_income_ratio dave.income dave.debt =
      Except.error "Income must be positive" by with_unfolding_all decide]

theorem make_loan_decision_eq (a : Applicant) (h1 : 0 < a.income) (h2 : 0 ≤ a.debt)
    (h3 : 300 ≤ a.credit_score) (h4 : a.credit_score ≤ 850) :
    make_loan_decision a = Except.ok
      (if a.debt / a.income < DTI_THRESHOLD ∧ MIN_CREDIT_SCORE ≤ a.credit_score then
        DecisionType.APPROVED
      else if MIN_CREDIT_SCORE ≤ a.credit_score ∧ a.debt / a.income < 0.35 then
        DecisionType.CONDITIONAL_APPROVAL
      else if a.debt / a.income < DTI_THRESHOLD ∧ 620 ≤ a.credit_score then
        DecisionType.CONDITIONAL_APPROVAL
      else DecisionType.DENIED) := by
  unfold make_loan_decision
  rw [dti_ok h1 h2]
  dsimp only
  rw [band_ok h3 h4]
  dsimp only
  split_ifs <;> rfl

theorem evaluate_eq_ok {a : Applicant} {d : LoanDecision}
    (h : analyze_applicant a = Except.ok d) (log : List LoanDecision) :
    evaluate_applicant a log = (Except.ok d, log ++ [d]) := by
  unfold evaluate_applicant
  rw [h]

theorem evaluate_eq_err {a : Applicant} {e : String}
    (h : analyze_applicant a = Except.error e) (log : List LoanDecision) :
    evaluate_applicant a log =
      (Except.error ("Error evaluating applicant " ++ a.name ++ ": " ++ e), log) := by
  unfold evaluate_applicant
  rw [h]

theorem analysisOf_eq {a : Applicant} {d : LoanDecision}
    (h : analyze_applicant a = Except.ok d) : analysisOf a = d := by
  unfold analysisOf
  rw [h]

theorem analyzeOk_of_ok {a : Applicant} {d : LoanDecision}
    (h : analyze_applicant a = Except.ok d) : analyzeOk a = true := by
  unfold analyzeOk
  rw [h]

theorem analyzeOk_of_err {a : Applicant} {e : String}
    (h : analyze_applicant a = Except.error e) : analyzeOk a = false := by
  unfold analyzeOk
  rw [h]

/- ### Claim theorems -/

/-- C1: the Decision Engine evaluates the four rules in fixed priority order
with the first matching rule winning: ratio < 0.30 and score ≥ 650 gives
Approved; else score ≥ 650 and ratio < 0.35 gives ConditionalApproval; else
ratio < 0.30 and score ≥ 620 gives ConditionalApproval; else Denied. -/
theorem C1_decision_rule_priority (a : Applicant) (h1 : 0 < a.income) (h2 : 0 ≤ a.debt)
    (h3 : 300 ≤ a.credit_score) (h4 : a.credit_score ≤ 850) :
    (a.debt / a.income < 0.30 ∧ 650 ≤ a.credit_score →
      make_loan_decision a = Except.ok DecisionType.APPROVED) ∧
    (¬(a.debt / a.income < 0.30 ∧ 650 ≤ a.credit_score) →
      650 ≤ a.credit_score ∧ a.debt / a.income < 0.35 →
      make_loan_decision a = Except.ok DecisionType.CONDITIONAL_APPROVAL) ∧
    (¬(a.debt / a.income < 0.30 ∧ 650 ≤ a.credit_score) →
      ¬(650 ≤ a.credit_score ∧ a.debt / a.income < 0.35) →
      a.debt / a.income < 0.30 ∧ 620 ≤ a.credit_score →
      make_loan_decision a = Except.ok DecisionType.CONDITIONAL_APPROVAL) ∧
    (¬(a.debt / a.income < 0.30 ∧ 650 ≤ a.credit_score) →
      ¬(650 ≤ a.credit_score ∧ a.debt / a.income < 0.35) →
      ¬(a.debt / a.income < 0.30 ∧ 620 ≤ a.credit_score) →
      make_loan_decision a = Except.ok DecisionType.DENIED) := by
  rw [make_loan_decision_eq a h1 h2 h3 h4]
  simp only [DTI_THRESHOLD, MIN_CREDIT_SCORE]
  refine ⟨?_, ?_, ?_, ?_⟩ <;> intros <;> split_ifs <;> rfl

/-- Witness for C1: an applicant with ratio 0.20 and score 700 yields
Approved via rule 1. -/
theorem C1_decision_rule_priority_witness :
    make_loan_decision patApproved = Except.ok DecisionType.APPROVED :=
  (C1_decision_rule_priority patApproved (by with_unfolding_all decide)
    (by with_unfolding_all decide) (by decide) (by decide)).1
    (by with_unfolding_all decide)

/-- C2: every credit score in [300,850] maps to exactly one band (the table
partitions the valid domain, the "categorization failed" fallback is
unreachable there), and scores outside [300,850] fail with the invalid-input
error. -/
theorem C2_band_total_partition (s : ℤ) :
    (300 ≤ s → s ≤ 850 →
      get_credit_score_band s = Except.ok (bandOf s) ∧ (matching_bands s).length = 1) ∧
    (s < 300 ∨ 850 < s →
      get_credit_score_band s = Except.error "Credit score must be between 300 and 850") := by
  constructor
  · intro h1 h2
    refine ⟨band_ok h1 h2, ?_⟩
    unfold matching_bands CREDIT_SCORE_BANDS
    simp only [List.filter_cons, List.filter_nil, decide_eq_true_eq]
    split_ifs <;> simp_all <;> omega
  · intro h
    unfold get_credit_score_band
    rw [if_pos (by omega)]

/-- Witness for C2 at scores 700 (in range, lands in `Good`) and 900
(out of range). -/
theorem C2_band_total_partition_witness :
    (get_credit_score_band 700 = Except.ok (bandOf 700) ∧ (matching_bands 700).length = 1) ∧
    get_credit_score_band 900 = Except.error "Credit score must be between 300 and 850" :=
  ⟨(C2_band_total_partition 700).1 (by decide) (by decide),
   (C2_band_total_partition 900).2 (by decide)⟩

/-- C8: for income > 0 and debt ≥ 0 the ratio is exactly debt / income with
no clamping, and the computation fails with the invalid-input errors exactly
when income ≤ 0 or debt < 0. -/
theorem C8_dti_exact (income debt : ℚ) :
    (0 < income → 0 ≤ debt →
      calculate_debt_to_income_ratio income debt = Except.ok (debt / income)) ∧
    (income ≤ 0 →
      calculate_debt_to_income_ratio income debt = Except.error "Income must be positive") ∧
    (0 < income → debt < 0 →
      calculate_debt_to_income_ratio income debt = Except.error "Debt cannot be negative") := by
  refine ⟨fun h1 h2 => dti_ok h1 h2, fun h => ?_, fun h1 h2 => ?_⟩
  · unfold calculate_debt_to_income_ratio
    rw [if_pos h]
  · unfold calculate_debt_to_income_ratio
    rw [if_neg (by linarith), if_pos h2]

/-- Witness for C8 on a valid pair and on both invalid-input cases. -/
theorem C8_dti_exact_witness :
    calculate_debt_to_income_ratio 45000 18000 = Except.ok (18000 / 45000) ∧
    calculate_debt_to_income_ratio (-5) 1000 = Except.error "Income must be positive" ∧
    calculate_debt_to_income_ratio 45000 (-1) = Except.error "Debt cannot be negative" :=
  ⟨(C8_dti_exact 45000 18000).1 (by with_unfolding_all decide)
      (by with_unfolding_all decide),
   (C8_dti_exact (-5) 1000).2.1 (by with_unfolding_all decide),
   (C8_dti_exact 45000 (-1)).2.2 (by with_unfolding_all decide)
      (by with_unfolding_all decide)⟩

/-- C3 counterexample: for the applicant {income 45000, debt 18000, score
640} the computed ratio is exactly 0.40 and the decision is Denied, but the
"extremely high" debt-burden risk factor is NOT in the returned risk-factor
sequence, because the source's check `dti_ratio > 0.40` is strict and
0.40 > 0.40 is false. -/
theorem C3_counterexample :
    analyze_applicant bob = Except.ok bobRec ∧
    bobRec.debt_to_income_ratio = 0.40 ∧
    bobRec.decision = DecisionType.DENIED ∧
    extremeDebtMsg ∉ bobRec.risk_factors := by
  refine ⟨bob_analysis, rfl, rfl, ?_⟩
  show extremeDebtMsg ∉ assess_risk_factors bob 0.40 CreditScoreBand.FAIR
  with_unfolding_all decide

/-- C3 amended: for the applicant {income 45000, debt 18000, score 640}, the
ratio is exactly 0.40, the decision is Denied, and the risk factors are
exactly the high-DTI factor and the below-minimum-credit-score factor; the
"extremely high" factor is absent since the code requires ratio strictly
greater than 0.40. -/
theorem C3_amended_bob_denied :
    analyze_applicant bob = Except.ok bobRec ∧
    bobRec.debt_to_income_ratio = 0.40 ∧
    bobRec.decision = DecisionType.DENIED ∧
    bobRec.risk_factors = [highDtiMsg 0.40, lowScoreMsg 640] ∧
    extremeDebtMsg ∉ bobRec.risk_factors := by
  refine ⟨bob_analysis, rfl, rfl, ?_, ?_⟩
  · show assess_risk_factors bob 0.40 CreditScoreBand.FAIR = _
    with_unfolding_all decide
  · show extremeDebtMsg ∉ assess_risk_factors bob 0.40 CreditScoreBand.FAIR
    with_unfolding_all decide

/-- C5: for the applicant {income 38000, debt 25000, score 580, age 29},
the ratio is 25/38 ≈ 0.658, the band is Fair, the decision is Denied, and
the bias flags include the age-bias-risk flag, the income-bias-risk flag and
the human-oversight escalation flag, in that check order. -/
theorem C5_carol_denied_bias_flags :
    analyze_applicant carol = Except.ok carolRec ∧
    carolRec.debt_to_income_ratio = 25/38 ∧
    (0.657 < carolRec.debt_to_income_ratio ∧ carolRec.debt_to_income_ratio < 0.659) ∧
    carolRec.credit_score_band = CreditScoreBand.FAIR ∧
    carolRec.decision = DecisionType.DENIED ∧
    List.Sublist [ageBiasMsg, incomeBiasMsg, multipleBiasMsg] carolRec.bias_flags := by
  refine ⟨carol_analysis, rfl, ⟨?_, ?_⟩, rfl, rfl, ?_⟩
  · show (0.657 : ℚ) < 25/38
    with_unfolding_all decide
  · show (25/38 : ℚ) < 0.659
    with_unfolding_all decide
  · show List.Sublist _ (detect_potential_bias carol DecisionType.DENIED)
    rw [show detect_potential_bias carol DecisionType.DENIED =
        [ageBiasMsg, incomeBiasMsg, creditLimitMsg, multipleBiasMsg] by
      with_unfolding_all decide]
    decide

theorem keys_bumpCount (acc : List (String × Nat)) (k : String) :
    (bumpCount acc k).map Prod.fst =
      if k ∈ acc.map Prod.fst then acc.map Prod.fst else acc.map Prod.fst ++ [k] := by
  induction acc with
  | nil => simp [bumpCount]
  | cons p rest ih =>
    obtain ⟨a, n⟩ := p
    by_cases h : a = k
    · subst h
      simp [bumpCount]
    · have hka : ¬(k = a) := fun hh => h hh.symm
      simp only [bumpCount, if_neg h, List.map_cons, ih]
      by_cases hk : k ∈ rest.map Prod.fst
      · simp [hk, List.mem_cons, hka]
      · simp [hk, List.mem_cons, hka]

theorem decision_counts_keys (log : List LoanDecision) :
    (decision_counts log).map Prod.fst =
      firstSeen (log.map (fun d => d.decision.value)) := by
  suffices h : ∀ (l : List LoanDecision) (acc : List (String × Nat)),
      (l.foldl (fun acc d => bumpCount acc d.decision.value) acc).map Prod.fst =
        (l.map (fun d => d.decision.value)).foldl
          (fun a x => if x ∈ a then a else a ++ [x]) (acc.map Prod.fst) by
    simpa [decision_counts, firstSeen] using h log []
  intro l
  induction l with
  | nil => intro acc; rfl
  | cons d ds ih =>
    intro acc
    simp only [List.foldl_cons, List.map_cons]
    rw [ih, keys_bumpCount]

theorem getCount_cons (p : String × Nat) (rest : List (String × Nat)) (k : String) :
    getCount (p :: rest) k = (if p.1 = k then p.2 else 0) + getCount rest k := by
  obtain ⟨a, n⟩ := p
  by_cases h : a = k <;> simp [getCount, List.filter_cons, h]

theorem getCount_bumpCount (acc : List (String × Nat)) (k k' : String) :
    getCount (bumpCount acc k) k' = getCount acc k' + (if k = k' then 1 else 0) := by
  induction acc with
  | nil =>
    by_cases h : k = k' <;> simp [bumpCount, getCount, List.filter_cons, h]
  | cons p rest ih =>
    obtain ⟨a, n⟩ := p
    by_cases h : a = k
    · subst h
      rw [show bumpCount ((a, n) :: rest) a = (a, n + 1) :: rest from by simp [bumpCount]]
      rw [getCount_cons, getCount_cons]
      by_cases h2 : a = k' <;> simp [h2] <;> omega
    · simp only [bumpCount, if_neg h]
      rw [getCount_cons, getCount_cons, ih]
      exact (Nat.add_assoc _ _ _).symm

theorem getCount_foldl (l : List LoanDecision) :
    ∀ (acc : List (String × Nat)) (k : String),
      getCount (l.foldl (fun acc d => bumpCount acc d.decision.value) acc) k =
        getCount acc k + (l.map (fun d => d.decision.value)).count k := by
  induction l with
  | nil => intro acc k; simp
  | cons d ds ih =>
    intro acc k
    simp only [List.foldl_cons, List.map_cons]
    rw [ih, getCount_bumpCount]
    by_cases hd : d.decision.value = k <;> simp [hd, List.count_cons] <;> omega

theorem decision_counts_count (log : List LoanDecision) (k : String) :
    getCount (decision_counts log) k = (log.map (fun d => d.decision.value)).count k := by
  unfold decision_counts
  rw [getCount_foldl]
  simp [getCount]

theorem mem_firstSeen (l : List String) (x : String) : x ∈ firstSeen l ↔ x ∈ l := by
  suffices h : ∀ (l acc : List String),
      x ∈ l.foldl (fun a y => if y ∈ a then a else a ++ [y]) acc ↔ x ∈ acc ∨ x ∈ l by
    simpa [firstSeen] using h l []
  intro l
  induction l with
  | nil => intro acc; simp
  | cons y ys ih =>
    intro acc
    simp only [List.foldl_cons]
    rw [ih]
    by_cases hy : y ∈ acc
    · rw [if_pos hy]
      constructor
      · rintro (h | h)
        · exact Or.inl h
        · exact Or.inr (List.mem_cons_of_mem _ h)
      · rintro (h | h)
        · exact Or.inl h
        · rcases List.mem_cons.mp h with rfl | h2
          · exact Or.inl hy
          · exact Or.inr h2
    · rw [if_neg hy]
      simp only [List.mem_append, List.mem_cons, List.mem_singleton]
      tauto

theorem flag_histogram_keys (log : List LoanDecision) (set_order : List String) :
    (flag_histogram log set_order).map Prod.fst = set_order := by
  induction set_order with
  | nil => rfl
  | cons f fs ih => simpa [flag_histogram] using ih

theorem carolLog_eq : carolLog = [carolRec] := by
  unfold carolLog
  rw [evaluate_eq_ok carol_analysis]
  rfl

theorem carol_flags : all_bias_flags carolLog =
    [ageBiasMsg, incomeBiasMsg, creditLimitMsg, multipleBiasMsg] := by
  rw [carolLog_eq]
  show (([carolRec].map fun d => d.bias_flags)).flatten = _
  simp only [List.map_cons, List.map_nil, List.flatten_cons, List.flatten_nil,
    List.append_nil]
  show detect_potential_bias carol DecisionType.DENIED = _
  with_unfolding_all decide

/-- C4 counterexample: on the log produced by evaluating Carol, the reverse
of the first-seen flag order is a legitimate iteration order of
`set(all_bias_flags)`, and under it the bias-flag histogram is NOT in
first-encountered order. -/
theorem C4_counterexample :
    carolLog ≠ [] ∧
    valid_set_order carolLog cexOrder ∧
    (flag_histogram carolLog cexOrder).map Prod.fst ≠ firstSeen (all_bias_flags carolLog) := by
  refine ⟨?_, ?_, ?_⟩
  · rw [carolLog_eq]
    simp
  · unfold valid_set_order
    rw [carol_flags]
    decide
  · rw [flag_histogram_keys, carol_flags]
    decide

/-- C4 amended: for every non-empty audit log, the decision-outcome
histogram lists outcomes in first-encountered order with correct counts;
the bias-flag histogram pairs each distinct flag with its correct count,
but enumerates the distinct flags in the (unspecified) iteration order of a
set, not necessarily first-seen order. -/
theorem C4_audit_summary_histograms (log : List LoanDecision) (set_order : List String)
    (hne : log ≠ []) (hvalid : valid_set_order log set_order) :
    (decision_counts log).map Prod.fst = firstSeen (log.map (fun d => d.decision.value)) ∧
    (∀ k, getCount (decision_counts log) k = (log.map (fun d => d.decision.value)).count k) ∧
    (flag_histogram log set_order).map Prod.fst = set_order ∧
    (∀ p ∈ flag_histogram log set_order, p.2 = (all_bias_flags log).count p.1) ∧
    (∀ f, f ∈ set_order ↔ f ∈ firstSeen (all_bias_flags log)) := by
  obtain ⟨hnd, hsub1, hsub2⟩ := hvalid
  refine ⟨decision_counts_keys log, fun k => decision_counts_count log k,
    flag_histogram_keys log set_order, ?_, ?_⟩
  · intro p hp
    simp only [flag_histogram, List.mem_map] at hp
    obtain ⟨f, hf, rfl⟩ := hp
    rfl
  · intro f
    rw [mem_firstSeen]
    exact ⟨fun h => hsub1 f h, fun h => hsub2 f h⟩

/-- Witness for C4 (amended) at Carol's log and the reversed set order. -/
theorem C4_audit_summary_histograms_witness :
    (decision_counts carolLog).map Prod.fst =
      firstSeen (carolLog.map (fun d => d.decision.value)) :=
  (C4_audit_summary_histograms carolLog cexOrder
    (by rw [carolLog_eq]; simp)
    (by unfold valid_set_order; rw [carol_flags]; decide)).1

theorem charsStartWith_append (p r : List Char) : charsStartWith (p ++ r) p = true := by
  induction p with
  | nil => cases r <;> simp [charsStartWith]
  | cons c cs ih => simp [charsStartWith, ih]

theorem strHasPre_append (p s : String) : strHasPre (p ++ s) p = true := by
  unfold strHasPre
  show charsStartWith (p ++ s).data p.data = true
  rw [String.data_append]
  exact charsStartWith_append _ _

/-- C6: whenever a single-applicant evaluation fails, the raised error is
the wrapped evaluation error whose message starts with
`"Error evaluating applicant <name>: "` — the applicant's identifying name
is included and no bare invalid-input error escapes. -/
theorem C6_errors_are_wrapped (a : Applicant) (log : List LoanDecision) (e : String)
    (h : (evaluate_applicant a log).1 = Except.error e) :
    strHasPre e ("Error evaluating applicant " ++ a.name ++ ": ") = true := by
  cases ha : analyze_applicant a with
  | ok d =>
    rw [evaluate_eq_ok ha log] at h
    exact absurd h (by simp)
  | error msg =>
    rw [evaluate_eq_err ha log] at h
    simp only at h
    injection h with h'
    rw [← h']
    exact strHasPre_append _ _

/-- Witness for C6 at the malformed applicant Dave (negative income). -/
theorem C6_errors_are_wrapped_witness :
    strHasPre "Error evaluating applicant Dave: Income must be positive"
      ("Error evaluating applicant " ++ dave.name ++ ": ") = true :=
  C6_errors_are_wrapped dave [] _
    (by rw [evaluate_eq_err dave_analysis []]; with_unfolding_all decide)

/-- C9: a decision record is appended to the audit log only when every
evaluation step succeeded: a failed evaluation leaves the log exactly as it
was, and a successful one appends exactly its record at the end. -/
theorem C9_failed_eval_leaves_log (a : Applicant) (log : List LoanDecision) :
    (∀ e, (evaluate_applicant a log).1 = Except.error e →
      (evaluate_applicant a log).2 = log) ∧
    (∀ d, (evaluate_applicant a log).1 = Except.ok d →
      (evaluate_applicant a log).2 = log ++ [d]) := by
  cases ha : analyze_applicant a with
  | ok d0 =>
    rw [evaluate_eq_ok ha log]
    constructor
    · intro e he
      exact absurd he (by simp)
    · intro d hd
      simp only at hd
      injection hd with hd'
      rw [hd']
  | error e0 =>
    rw [evaluate_eq_err ha log]
    constructor
    · intro e _
      rfl
    · intro d hd
      exact absurd hd (by simp)

/-- Witness for C9: Dave's failed evaluation leaves the empty log empty. -/
theorem C9_failed_eval_leaves_log_witness :
    (evaluate_applicant dave []).2 = [] :=
  (C9_failed_eval_leaves_log dave []).1
    "Error evaluating applicant Dave: Income must be positive"
    (by rw [evaluate_eq_err dave_analysis []]; with_unfolding_all decide)

/-- C7: batch evaluation processes applicants in input order: the audit log
is always extended, in order, with the decisions of the longest prefix of
applicants that evaluate successfully; when every applicant succeeds the
returned sequence is the in-order sequence of their decisions and the log is
extended by exactly that sequence; when some applicant fails the batch
raises (fail-fast), so no out-of-order or silently dropped entry can occur. -/
theorem C7_batch_preserves_order (applicants : List Applicant) (log : List LoanDecision) :
    (process_applicant_batch applicants log).2 =
      log ++ (applicants.takeWhile analyzeOk).map analysisOf ∧
    ((∀ a ∈ applicants, analyzeOk a = true) →
      process_applicant_batch applicants log =
        (Except.ok (applicants.map analysisOf), log ++ applicants.map analysisOf)) ∧
    ((∃ a ∈ applicants, analyzeOk a = false) →
      exceptIsOk (process_applicant_batch applicants log).1 = false) := by
  induction applicants generalizing log with
  | nil =>
    refine ⟨by simp [process_applicant_batch], ?_, ?_⟩
    · intro _
      simp [process_applicant_batch]
    · rintro ⟨a, ha, _⟩
      exact absurd ha (List.not_mem_nil a)
  | cons a rest ih =>
    cases hA : analyze_applicant a with
    | error e =>
      have h1 := evaluate_eq_err hA log
      have hOk := analyzeOk_of_err hA
      refine ⟨?_, ?_, ?_⟩
      · show (process_applicant_batch (a :: rest) log).2 = _
        simp only [process_applicant_batch, h1, List.takeWhile_cons, hOk]
        simp
      · intro hall
        have := hall a (List.mem_cons_self a rest)
        rw [hOk] at this
        exact absurd this (by simp)
      · intro _
        simp only [process_applicant_batch, h1]
        rfl
    | ok d =>
      have h1 := evaluate_eq_ok hA log
      have hOk := analyzeOk_of_ok hA
      have hAd := analysisOf_eq hA
      obtain ⟨ih1, ih2, ih3⟩ := ih (log ++ [d])
      refine ⟨?_, ?_, ?_⟩
      · simp only [process_applicant_batch, h1, List.takeWhile_cons, hOk, if_pos,
          List.map_cons, hAd]
        rcases hpb : process_applicant_batch rest (log ++ [d]) with ⟨r2, l2⟩
        rw [hpb] at ih1
        cases r2 <;> simp_all [List.append_assoc]
      · intro hall
        have hres := ih2 (fun x hx => hall x (List.mem_cons_of_mem a hx))
        simp only [process_applicant_batch, h1, hres, List.map_cons, hAd]
        simp [List.append_assoc]
      · rintro ⟨b, hb, hbf⟩
        rcases List.mem_cons.mp hb with rfl | hb2
        · rw [hOk] at hbf
          exact absurd hbf (by simp)
        · have hres := ih3 ⟨b, hb2, hbf⟩
          simp only [process_applicant_batch, h1]
          rcases hpb : process_applicant_batch rest (log ++ [d]) with ⟨r2, l2⟩
          rw [hpb] at hres
          cases r2
          · simp [exceptIsOk]
          · exact absurd hres (by simp [exceptIsOk])

/-- Witness for C7 on the batch [Bob]: every applicant succeeds, so the
result is Bob's decision and the log is extended by it in order. -/
theorem C7_batch_preserves_order_witness :
    process_applicant_batch [bob] [] =
      (Except.ok ([bob].map analysisOf), [] ++ [bob].map analysisOf) :=
  (C7_batch_preserves_order [bob] []).2.1
    (fun x hx => by
      rw [List.mem_singleton] at hx
      subst hx
      exact analyzeOk_of_ok bob_analysis)

/-- C10: every applicant that evaluates successfully to a Denied outcome has
a non-empty risk-factor sequence (a denial forces ratio > 0.30 or score
below 650, each of which contributes a factor), so the Denied explanation is
always the semicolon-joined risk summary and never the
"Multiple risk factors identified" fallback. -/
theorem C10_denied_has_risk_factors (a : Applicant) (log : List LoanDecision)
    (d : LoanDecision) (h : (evaluate_applicant a log).1 = Except.ok d)
    (hden : d.decision = DecisionType.DENIED) :
    d.risk_factors ≠ [] ∧
    d.explanation = "DENIED - " ++ base_info a d.debt_to_income_ratio d.credit_score_band ++
      ". Risk factors: " ++ String.intercalate "; " d.risk_factors := by
  have hana : analyze_applicant a = Except.ok d := by
    cases ha : analyze_applicant a with
    | ok d0 =>
      have hok : (Except.ok d0 : Except String LoanDecision) = Except.ok d := by
        rw [evaluate_eq_ok ha log] at h
        exact h
      exact hok
    | error e =>
      rw [evaluate_eq_err ha log] at h
      exact absurd h (by simp)
  clear h
  unfold analyze_applicant at hana
  cases hc : calculate_debt_to_income_ratio a.income a.debt with
  | error e =>
    rw [hc] at hana
    exact Except.noConfusion hana
  | ok dti =>
    rw [hc] at hana
    dsimp only at hana
    cases hb : get_credit_score_band a.credit_score with
    | error e =>
      rw [hb] at hana
      exact Except.noConfusion hana
    | ok band =>
      rw [hb] at hana
      dsimp only at hana
      cases hm : make_loan_decision a with
      | error e =>
        rw [hm] at hana
        exact Except.noConfusion hana
      | ok dec =>
        rw [hm] at hana
        dsimp only at hana
        injection hana with hrec
        subst hrec
        have hdec : dec = DecisionType.DENIED := hden
        subst hdec
        unfold make_loan_decision at hm
        rw [hc] at hm
        dsimp only at hm
        rw [hb] at hm
        dsimp only at hm
        have h1 : ¬(dti < DTI_THRESHOLD ∧ MIN_CREDIT_SCORE ≤ a.credit_score) := by
          intro hcond
          rw [if_pos hcond] at hm
          exact absurd hm (by decide)
        have h2 : ¬(MIN_CREDIT_SCORE ≤ a.credit_score ∧ dti < 0.35) := by
          intro hcond
          rw [if_neg h1, if_pos hcond] at hm
          exact absurd hm (by decide)
        obtain ⟨hinc, hdebt, hdti⟩ := dti_inv hc
        have hne : assess_risk_factors a dti band ≠ [] := by
          rcases lt_or_le a.credit_score MIN_CREDIT_SCORE with hs | hs
          · have hmem : lowScoreMsg a.credit_score ∈ assess_risk_factors a dti band := by
              simp only [assess_risk_factors]
              split_ifs <;> first | simp | omega
            exact List.ne_nil_of_mem hmem
          · have h35 : (0.35 : ℚ) ≤ dti := not_lt.mp (fun hlt => h2 ⟨hs, hlt⟩)
            have hgt : DTI_THRESHOLD < dti := by
              have h30 : (DTI_THRESHOLD : ℚ) < 0.35 := by norm_num [DTI_THRESHOLD]
              linarith
            have hmem : highDtiMsg dti ∈ assess_risk_factors a dti band := by
              simp only [assess_risk_factors]
              split_ifs <;> first | simp | linarith
            exact List.ne_nil_of_mem hmem
        refine ⟨hne, ?_⟩
        show generate_decision_explanation a DecisionType.DENIED dti band
          (assess_risk_factors a dti band) =
            "DENIED - " ++ base_info a dti band ++ ". Risk factors: " ++
              String.intercalate "; " (assess_risk_factors a dti band)
        unfold generate_decision_explanation
        dsimp only
        rw [if_neg hne]

/-- Witness for C10 at Carol's denied evaluation. -/
theorem C10_denied_has_risk_factors_witness :
    carolRec.risk_factors ≠ [] ∧
    carolRec.explanation = "DENIED - " ++
      base_info carol carolRec.debt_to_income_ratio carolRec.credit_score_band ++
      ". Risk factors: " ++ String.intercalate "; " carolRec.risk_factors :=
  C10_denied_has_risk_factors carol [] carolRec
    (by rw [evaluate_eq_ok carol_analysis]) rfl

end LoanAgent
